import Mathlib

/-!
Shallow embedding of the projection / budget-vs-actual engine of
`backend/services/calculations.py` (with the entity shapes of
`backend/models.py`), and proofs of the specification claims about it.

Modelling conventions:
* Monetary amounts (Python `float`) are embedded as exact rationals `ℚ`.
* A Python `date` is a `PDate`; the engine only ever compares month-start
  dates, which are embedded as the absolute month index
  `year * 12 + (month - 1)` (order- and equality-preserving).
* Python runtime errors reachable in the engine (`ZeroDivisionError` in the
  loan/asset schedules, `KeyError` in the actuals aggregation) are embedded
  as `Option`: `none` means the Python code raises.
* Python truthiness tests on `Optional[int]` / `Optional[float]` values
  (`if contract.id:`, `rate or 0.88`, `elif offer.variable_cost_rate:`) are
  embedded explicitly: `None` and `0` are falsy.
* `round(x, 2)` is embedded as rounding to an integer number of cents,
  half-cents rounding up (Python rounds ties of the underlying binary float
  to even; no claim below depends on the tie-breaking direction).
-/

namespace BusinessPlan

/-- A calendar date as in Python `datetime.date`: year, month (1-12), day. -/
structure PDate where
  year : Int
  month : Int
  day : Int
deriving DecidableEq

/-- `month_start` (calculations.py): the month of a date, encoded as the
absolute month index `year * 12 + (month - 1)`.  Equality and order of the
indices agree with equality and order of the Python dates `date(y, m, 1)`. -/
def monthStart (d : PDate) : Int := d.year * 12 + (d.month - 1)

/-- The calendar month (1-12) denoted by an absolute month index
(`date.month` of the corresponding month-start date). -/
def monthNum (m : Int) : Int := m % 12 + 1

/-- `FISCAL_START_MONTH = 10` (calculations.py). -/
def FISCAL_START_MONTH : Int := 10

/-- `generate_months` (calculations.py): the `years * 12` consecutive month
indices starting at (startYear, FISCAL_START_MONTH). -/
def generateMonths (startYear years : Int) : List Int :=
  (List.range (years * 12).toNat).map
    (fun i => startYear * 12 + (FISCAL_START_MONTH - 1) + (i : Int))

/-- `OfferType` (models.py). -/
inductive OfferType where
  | one_off
  | recurring
  | license
  | hardware
deriving DecidableEq

/-- `Recurrence` (models.py). -/
inductive Recurrence where
  | one_time
  | monthly
  | annual
deriving DecidableEq

/-- `Offer` (models.py).  A persisted offer always has an integer id. -/
structure Offer where
  id : Nat
  offer_type : OfferType
  default_price : ℚ
  variable_cost_rate : Option ℚ
deriving DecidableEq

/-- `Contract` (models.py).  `id` is `Optional[int]` in Python. -/
structure Contract where
  id : Option Nat
  offer_id : Nat
  start_date : PDate
  end_date : Option PDate
  recurrence : Recurrence
  total_value : ℚ
  quantity : Int
  tax_rate : ℚ
deriving DecidableEq

/-- `PaymentEvent` (models.py). -/
structure PaymentEvent where
  contract_id : Nat
  due_date : PDate
  amount : ℚ
deriving DecidableEq

/-- `FixedCost` (models.py). -/
structure FixedCost where
  monthly_amount : ℚ
  start_date : PDate
  end_date : Option PDate
deriving DecidableEq

/-- `Asset` (models.py); `amortization_months` is a Python `int`. -/
structure Asset where
  purchase_date : PDate
  purchase_amount : ℚ
  amortization_months : Int
deriving DecidableEq

/-- `Loan` (models.py); `term_months` is a Python `int`. -/
structure Loan where
  principal : ℚ
  annual_rate : ℚ
  start_date : PDate
  term_months : Int
deriving DecidableEq

/-- `ActualEntry` (models.py): the category is a plain string column. -/
structure ActualEntry where
  entry_date : PDate
  category : String
  amount : ℚ
deriving DecidableEq

/-- The record store contents read by the engine (`session.exec(select(...))`
for each entity type), in insertion order. -/
structure Database where
  offers : List Offer
  contracts : List Contract
  payment_events : List PaymentEvent
  fixed_costs : List FixedCost
  assets : List Asset
  loans : List Loan
  actual_entries : List ActualEntry
deriving DecidableEq

/-- Per-month monetary accumulator: the Python dicts pre-populated with the
window months and `0.0`, embedded as total functions that are only ever
updated at window months. -/
abbrev MMap := Int → ℚ

/-- The all-zero accumulator. -/
def mzero : MMap := fun _ => 0

/-- `dict[k] += v`. -/
def addAt (f : MMap) (k : Int) (v : ℚ) : MMap :=
  fun m => if m = k then f m + v else f m

/-- `round(q, 2)`: round to a whole number of cents. -/
def round2 (q : ℚ) : ℚ := ((⌊q * 100 + 1 / 2⌋ : ℤ) : ℚ) / 100

/-- `_ensure_offer_map` followed by `offer_map.get(oid)`: a Python dict keyed
by `offer.id`, so a later offer with the same id overwrites an earlier one. -/
def ensureOfferMap (offers : List Offer) (oid : Nat) : Option Offer :=
  offers.foldl (fun acc o => if o.id = oid then some o else acc) none

/-- Python truthiness of an `Optional[int]`: `None` and `0` are falsy. -/
def natIdTruthy : Option Nat → Bool
  | none => false
  | some i => i != 0

/-- Python truthiness of an `Optional[float]`: `None` and `0.0` are falsy. -/
def ratTruthy : Option ℚ → Bool
  | none => false
  | some r => r != 0

/-- Python `x or d` on an `Optional[float]` `x`: yields `d` when `x` is
`None` or `0.0`. -/
def pyOr (r : Option ℚ) (d : ℚ) : ℚ :=
  match r with
  | none => d
  | some x => if x = 0 then d else x

/-- The window-validity test shared by the monthly/annual recurrences and the
fixed-cost spreader: `m >= month_start(start) and (not end or m <= month_start(end))`. -/
def withinWindow (startD : PDate) (endD : Option PDate) (m : Int) : Bool :=
  decide (monthStart startD ≤ m) &&
    (match endD with
     | none => true
     | some e => decide (m ≤ monthStart e))

/-- `session_payment_events` (calculations.py): the contract's explicit
payment events whose due month falls inside the window, as
(month-start, amount) pairs, in record-store order. -/
def sessionPaymentEvents (db : Database) (c : Contract) (months : List Int) :
    List (Int × ℚ) :=
  if natIdTruthy c.id then
    (db.payment_events.filter fun e =>
        (some e.contract_id == c.id) && decide (monthStart e.due_date ∈ months)).map
      fun e => (monthStart e.due_date, e.amount)
  else []

/-- `_collect_payment_plan` (calculations.py): explicit events when present,
otherwise the recurrence-derived synthetic plan. -/
def collectPaymentPlan (db : Database) (c : Contract) (months : List Int) :
    List (Int × ℚ) :=
  let explicit := if natIdTruthy c.id then sessionPaymentEvents db c months else []
  if explicit ≠ [] then explicit
  else
    match c.recurrence with
    | Recurrence.one_time =>
      [(monthStart c.start_date, c.total_value * (c.quantity : ℚ))]
    | Recurrence.monthly =>
      (months.filter fun m => withinWindow c.start_date c.end_date m).map
        fun m => (m, c.total_value * (c.quantity : ℚ))
    | Recurrence.annual =>
      (months.filter fun m =>
          (monthNum m == c.start_date.month) && withinWindow c.start_date c.end_date m).map
        fun m => (m, c.total_value * (c.quantity : ℚ))

/-- The revenue / variable-cost / cash-inflow accumulators of
`compute_projection`. -/
structure RevState where
  revenue : MMap
  variable_costs : MMap
  cash_inflows : MMap

/-- One iteration of the `for due_month, amount in plan` loop of
`compute_projection`: the three `if due_month in ...` guards all test
membership in the window (the dicts are keyed by exactly the window months). -/
def applyPlanEntry (months : List Int) (c : Contract) (o : Offer)
    (s : RevState) (e : Int × ℚ) : RevState :=
  if e.1 ∈ months then
    { revenue := addAt s.revenue e.1 e.2
      variable_costs :=
        if o.offer_type == OfferType.license then
          addAt s.variable_costs e.1 (e.2 * pyOr o.variable_cost_rate (88 / 100))
        else if ratTruthy o.variable_cost_rate then
          addAt s.variable_costs e.1 (e.2 * o.variable_cost_rate.getD 0)
        else s.variable_costs
      cash_inflows := addAt s.cash_inflows e.1 (e.2 * (1 + c.tax_rate)) }
  else s

/-- One iteration of the `for contract in ...` loop of `compute_projection`:
contracts whose offer reference does not resolve are skipped silently. -/
def applyContract (db : Database) (months : List Int) (s : RevState)
    (c : Contract) : RevState :=
  match ensureOfferMap db.offers c.offer_id with
  | none => s
  | some o => (collectPaymentPlan db c months).foldl (applyPlanEntry months c o) s

/-- The contracts-and-payments pass of `compute_projection`. -/
def contractsPass (db : Database) (months : List Int) : RevState :=
  db.contracts.foldl (applyContract db months) ⟨mzero, mzero, mzero⟩

/-- One iteration of the fixed-cost loop of `compute_projection`; the state is
(fixed_costs, cash_outflows). -/
def applyFixed (months : List Int) (s : MMap × MMap) (f : FixedCost) :
    MMap × MMap :=
  months.foldl
    (fun s m =>
      if withinWindow f.start_date f.end_date m then
        (addAt s.1 m f.monthly_amount, addAt s.2 m f.monthly_amount)
      else s)
    s

/-- The fixed-costs pass of `compute_projection`. -/
def fixedPass (db : Database) (months : List Int) : MMap × MMap :=
  db.fixed_costs.foldl (applyFixed months) (mzero, mzero)

/-- One iteration of the asset loop of `compute_projection`; the state is
(amortization, cash_outflows).  `purchase_amount / amortization_months` with
`amortization_months = 0` raises `ZeroDivisionError` in Python (`none` here);
the full purchase amount is added to cash outflow only at iteration `i = 0`. -/
def assetStep (months : List Int) (a : Asset) (s : MMap × MMap) (i : Nat) :
    MMap × MMap :=
  let m := monthStart a.purchase_date + (i : Int)
  if m ∈ months then
    (addAt s.1 m (a.purchase_amount / (a.amortization_months : ℚ)),
     addAt s.2 m (if i = 0 then a.purchase_amount else 0))
  else s

/-- The per-asset schedule of `compute_projection`: `assetStep` folded over
`range(amortization_months)` (the per-month charge is the same pure value at
every iteration, so computing it inside the step is equivalent to Python's
hoisting it before the loop). -/
def processAsset (months : List Int) (s : MMap × MMap) (a : Asset) :
    Option (MMap × MMap) :=
  if a.amortization_months = 0 then none
  else some ((List.range a.amortization_months.toNat).foldl (assetStep months a) s)

/-- The asset pass of `compute_projection`. -/
def assetsPass (db : Database) (months : List Int) (s : MMap × MMap) :
    Option (MMap × MMap) :=
  db.assets.foldlM (processAsset months) s

/-- `monthly_rate = loan.annual_rate / 12`. -/
def monthlyRate (l : Loan) : ℚ := l.annual_rate / 12

/-- The level payment `principal * (monthly_rate / (1 - (1 + monthly_rate) ** (-term_months)))`.
Python raises on the two reachable error states: `math.pow(0.0, n)` with
`n < 0` (`ValueError`, when `1 + monthly_rate = 0` and `term_months > 0`) and
a zero denominator (`ZeroDivisionError`); both are `none` here. -/
def loanPayment (l : Loan) : Option ℚ :=
  let r := monthlyRate l
  if 1 + r = 0 ∧ 0 < l.term_months then none
  else
    let denom := 1 - (1 + r) ^ (-l.term_months)
    if denom = 0 then none
    else some (l.principal * (r / denom))

/-- One iteration of the per-loan schedule loop; the state is
((loan_interest, loan_principal, cash_outflows), balance).  An out-of-window
month is skipped entirely (`continue`), leaving the balance unchanged. -/
def loanStep (months : List Int) (startM : Int) (payment r : ℚ)
    (s : (MMap × MMap × MMap) × ℚ) (i : Nat) : (MMap × MMap × MMap) × ℚ :=
  let m := startM + (i : Int)
  if m ∈ months then
    let interest := s.2 * r
    let principal := payment - interest
    ((addAt s.1.1 m interest, addAt s.1.2.1 m principal, addAt s.1.2.2 m payment),
     s.2 - principal)
  else s

/-- One iteration of the loan loop of `compute_projection`. -/
def processLoan (months : List Int) (s : MMap × MMap × MMap) (l : Loan) :
    Option (MMap × MMap × MMap) :=
  match loanPayment l with
  | none => none
  | some payment =>
    some (((List.range l.term_months.toNat).foldl
      (loanStep months (monthStart l.start_date) payment (monthlyRate l))
      (s, l.principal)).1)

/-- The loan pass of `compute_projection`; the state is
(loan_interest, loan_principal, cash_outflows). -/
def loansPass (db : Database) (months : List Int) (s : MMap × MMap × MMap) :
    Option (MMap × MMap × MMap) :=
  db.loans.foldlM (processLoan months) s

/-- `MonthlyBreakdown` (schemas/projection.py), with the month as its index. -/
structure MonthlyBreakdown where
  month : Int
  revenue : ℚ
  variable_costs : ℚ
  fixed_costs : ℚ
  amortization : ℚ
  loan_interest : ℚ
  loan_principal : ℚ
  ebt : ℚ
  cash : ℚ
deriving DecidableEq

instance : Inhabited MonthlyBreakdown := ⟨⟨0, 0, 0, 0, 0, 0, 0, 0, 0⟩⟩

/-- The final loop of `compute_projection`: one statement per window month,
threading the full-precision cumulative cash and rounding every reported
field to 2 decimals. -/
def buildBreakdown (rev var fc am li lp cin cout : MMap) :
    List Int → ℚ → List MonthlyBreakdown
  | [], _ => []
  | m :: rest, cum =>
    let cum2 := cum + (cin m - cout m)
    { month := m
      revenue := round2 (rev m)
      variable_costs := round2 (var m)
      fixed_costs := round2 (fc m)
      amortization := round2 (am m)
      loan_interest := round2 (li m)
      loan_principal := round2 (lp m)
      ebt := round2 (rev m - var m - fc m - am m - li m)
      cash := round2 cum2 } :: buildBreakdown rev var fc am li lp cin cout rest cum2

/-- The successive values of the full-precision accumulator `cumulative_cash`
of `compute_projection`, one per window month. -/
def cumCashList (cin cout : MMap) : List Int → ℚ → List ℚ
  | [], _ => []
  | m :: rest, cum => (cum + (cin m - cout m)) :: cumCashList cin cout rest (cum + (cin m - cout m))

/-- All accumulators of `compute_projection` just before its final loop:
(revenue, variable_costs, fixed_costs, amortization, loan_interest,
loan_principal, cash_inflows, cash_outflows); `none` when the asset or loan
pass raises. -/
def projParts (db : Database) (months : List Int) :
    Option (MMap × MMap × MMap × MMap × MMap × MMap × MMap × MMap) :=
  let rs := contractsPass db months
  let p := fixedPass db months
  match assetsPass db months (mzero, p.2) with
  | none => none
  | some q =>
    match loansPass db months (mzero, mzero, q.2) with
    | none => none
    | some t =>
      some (rs.revenue, rs.variable_costs, p.1, q.1, t.1, t.2.1, rs.cash_inflows, t.2.2)

/-- `compute_projection` (calculations.py); `none` when the Python code
raises on a degenerate asset or loan record. -/
def computeProjection (db : Database) (startYear years : Int) (initialCash : ℚ) :
    Option (List MonthlyBreakdown) :=
  match projParts db (generateMonths startYear years) with
  | none => none
  | some (rev, var, fc, am, li, lp, cin, cout) =>
    some (buildBreakdown rev var fc am li lp cin cout (generateMonths startYear years) initialCash)

/-- Modelled from the spec: the `ActualCategory` enumeration imported by
calculations.py is not part of the provided `backend/models.py`; spec section
4.8 fixes it as the six-category taxonomy {revenue, variable_costs,
fixed_costs, amortization, loan_interest, loan_principal}. -/
inductive ActualCategory where
  | revenue
  | variable_costs
  | fixed_costs
  | amortization
  | loan_interest
  | loan_principal
deriving DecidableEq

/-- Modelled from the spec: which of the six category string values (the
keys of the per-month bucket `{c: 0.0 for c in ActualCategory}`) an
`ActualEntry.category` string matches, `none` when it matches no key. -/
def ActualCategory.ofString (s : String) : Option ActualCategory :=
  if s = "revenue" then some ActualCategory.revenue
  else if s = "variable_costs" then some ActualCategory.variable_costs
  else if s = "fixed_costs" then some ActualCategory.fixed_costs
  else if s = "amortization" then some ActualCategory.amortization
  else if s = "loan_interest" then some ActualCategory.loan_interest
  else if s = "loan_principal" then some ActualCategory.loan_principal
  else none

/-- The per-month-per-category actual buckets: a month never written reads as
the all-zero bucket, as does `actuals.get(month, {c: 0.0 ...})`. -/
abbrev AMap := Int → ActualCategory → ℚ

/-- `actuals[m][c] += v`. -/
def addCat (f : AMap) (m : Int) (c : ActualCategory) (v : ℚ) : AMap :=
  fun m2 c2 => if m2 = m ∧ c2 = c then f m2 c2 + v else f m2 c2

/-- `aggregate_actuals` (calculations.py): bucket every entry by month and
category.  An entry whose category string matches none of the six bucket keys
raises `KeyError` in Python (`none` here). -/
def aggregateActuals : List ActualEntry → AMap → Option AMap
  | [], acc => some acc
  | e :: rest, acc =>
    match ActualCategory.ofString e.category with
    | none => none
    | some c => aggregateActuals rest (addCat acc (monthStart e.entry_date) c e.amount)

/-- `BudgetVsActualRow` (schemas/projection.py). -/
structure BudgetVsActualRow where
  month : Int
  budget_revenue : ℚ
  actual_revenue : ℚ
  variance_revenue : ℚ
  budget_variable : ℚ
  actual_variable : ℚ
  variance_variable : ℚ
  budget_fixed : ℚ
  actual_fixed : ℚ
  variance_fixed : ℚ
  budget_amortization : ℚ
  actual_amortization : ℚ
  variance_amortization : ℚ
  budget_interest : ℚ
  actual_interest : ℚ
  variance_interest : ℚ
  budget_principal : ℚ
  actual_principal : ℚ
  variance_principal : ℚ
  budget_ebt : ℚ
  actual_ebt : ℚ
  variance_ebt : ℚ
  budget_cash : ℚ
  actual_cash : ℚ
  variance_cash : ℚ
deriving DecidableEq

instance : Inhabited BudgetVsActualRow :=
  ⟨⟨0, 0, 0, 0, 0, 0, 0, 0, 0, 0, 0, 0, 0, 0, 0, 0, 0, 0, 0, 0, 0, 0, 0, 0, 0⟩⟩

/-- One row of `compute_budget_vs_actual`, from the month's budget statement,
the month's actual bucket and the already-updated running actual cash. -/
def mkRow (b : MonthlyBreakdown) (ma : ActualCategory → ℚ) (actualCash : ℚ) :
    BudgetVsActualRow :=
  let aRev := ma ActualCategory.revenue
  let aVar := ma ActualCategory.variable_costs
  let aFix := ma ActualCategory.fixed_costs
  let aAm := ma ActualCategory.amortization
  let aInt := ma ActualCategory.loan_interest
  let aPr := ma ActualCategory.loan_principal
  let aEbt := aRev - aVar - aFix - aAm - aInt
  { month := b.month
    budget_revenue := b.revenue
    actual_revenue := round2 aRev
    variance_revenue := round2 (aRev - b.revenue)
    budget_variable := b.variable_costs
    actual_variable := round2 aVar
    variance_variable := round2 (aVar - b.variable_costs)
    budget_fixed := b.fixed_costs
    actual_fixed := round2 aFix
    variance_fixed := round2 (aFix - b.fixed_costs)
    budget_amortization := b.amortization
    actual_amortization := round2 aAm
    variance_amortization := round2 (aAm - b.amortization)
    budget_interest := b.loan_interest
    actual_interest := round2 aInt
    variance_interest := round2 (aInt - b.loan_interest)
    budget_principal := b.loan_principal
    actual_principal := round2 aPr
    variance_principal := round2 (aPr - b.loan_principal)
    budget_ebt := b.ebt
    actual_ebt := round2 aEbt
    variance_ebt := round2 (aEbt - b.ebt)
    budget_cash := b.cash
    actual_cash := round2 actualCash
    variance_cash := round2 (actualCash - b.cash) }

/-- The row loop of `compute_budget_vs_actual`, driven by the budget's month
sequence (whose months are pairwise distinct, so the `budget_by_month` lookup
returns the row being iterated) and threading the running actual cash. -/
def bvaRows (actuals : AMap) : List MonthlyBreakdown → ℚ → List BudgetVsActualRow
  | [], _ => []
  | b :: rest, cash =>
    let ma := actuals b.month
    let flow := ma ActualCategory.revenue - ma ActualCategory.variable_costs -
      ma ActualCategory.fixed_costs - ma ActualCategory.amortization -
      ma ActualCategory.loan_interest - ma ActualCategory.loan_principal
    mkRow b ma (cash + flow) :: bvaRows actuals rest (cash + flow)

/-- `compute_budget_vs_actual` (calculations.py); `none` when
`compute_projection` or `aggregate_actuals` raises. -/
def computeBudgetVsActual (db : Database) (startYear years : Int)
    (initialCash : ℚ) : Option (List BudgetVsActualRow) :=
  match computeProjection db startYear years initialCash with
  | none => none
  | some budget =>
    match aggregateActuals db.actual_entries (fun _ _ => 0) with
    | none => none
    | some actuals => some (bvaRows actuals budget initialCash)

/-! ### Auxiliary definitions used by the verification below -/

/-- `q` is a whole number of cents (the shape of every value `round2` emits,
and hence of every monetary field reported by the engine). -/
def isCents (q : ℚ) : Prop := ∃ k : ℤ, q = (k : ℚ) / 100

/-- All monetary fields of a reported monthly statement are whole cents. -/
def centsB (b : MonthlyBreakdown) : Prop :=
  isCents b.revenue ∧ isCents b.variable_costs ∧ isCents b.fixed_costs ∧
    isCents b.amortization ∧ isCents b.loan_interest ∧ isCents b.loan_principal ∧
    isCents b.ebt ∧ isCents b.cash

/-- The effective variable-cost rate actually applied by the attribution code
to one payment of an offer: the stored rate when it is set and nonzero; for
license offers 0.88 when the rate is unset or stored as 0; otherwise 0. -/
def effectiveRate (o : Offer) : ℚ :=
  match o.variable_cost_rate with
  | some r =>
    if r ≠ 0 then r
    else if o.offer_type = OfferType.license then 88 / 100 else 0
  | none => if o.offer_type = OfferType.license then 88 / 100 else 0

/-- The running balance of the per-loan schedule loop after `k` in-window
iterations: each step subtracts the principal portion `payment - balance * r`. -/
def loanBalance (P payment r : ℚ) : Nat → ℚ
  | 0 => P
  | k + 1 => loanBalance P payment r k - (payment - loanBalance P payment r k * r)

/-- An empty record store. -/
def emptyDb : Database := ⟨[], [], [], [], [], [], []⟩

/-- A record store holding one loan with a zero annual rate: the annuity
denominator `1 - (1 + 0) ** (-12)` is zero. -/
def loanDb0 : Database :=
  ⟨[], [], [], [], [], [⟨1000, 0, ⟨2024, 10, 1⟩, 12⟩], []⟩

/-- A record store holding one loan with `term_months = 0`: the annuity
denominator `1 - (1 + 0.01) ** 0` is zero. -/
def loanDbT0 : Database :=
  ⟨[], [], [], [], [], [⟨1000, 12 / 100, ⟨2024, 10, 1⟩, 0⟩], []⟩

/-- A license offer whose variable-cost rate is set to 0. -/
def c5offer : Offer := ⟨1, OfferType.license, 100, some 0⟩

/-- A one-time contract over `c5offer`, paying 100 at the window start. -/
def c5contract : Contract :=
  ⟨none, 1, ⟨2024, 10, 1⟩, none, Recurrence.one_time, 100, 1, 0⟩

/-- A record store holding just `c5offer` and `c5contract`. -/
def c5db : Database := ⟨[c5offer], [c5contract], [], [], [], [], []⟩

/-- A contract with one explicit payment event (`c4db`). -/
def c4contract : Contract :=
  ⟨some 1, 1, ⟨2024, 10, 1⟩, none, Recurrence.monthly, 100, 1, 1 / 5⟩

/-- A record store where contract 1 has a single explicit payment event due
2024-12-05, inside the 2024 fiscal window. -/
def c4db : Database :=
  ⟨[⟨1, OfferType.recurring, 100, none⟩], [c4contract],
    [⟨1, ⟨2024, 12, 5⟩, 500⟩], [], [], [], []⟩

/-- A one-time contract starting 2024-01-15, outside the fiscal window that
starts 2024-10 (`c9db`). -/
def c9contract : Contract :=
  ⟨none, 1, ⟨2024, 1, 15⟩, none, Recurrence.one_time, 100, 1, 1 / 5⟩

/-- A record store holding just `c9contract` and its offer. -/
def c9db : Database :=
  ⟨[⟨1, OfferType.one_off, 100, none⟩], [c9contract], [], [], [], [], []⟩

/-- The asset of the spec scenario: 1200 purchased 2024-10-01, amortized over
12 months. -/
def asset6 : Asset := ⟨⟨2024, 10, 1⟩, 1200, 12⟩

/-- The loan of the spec scenario: 12000 at 12% annual over 12 months from
2024-10-01. -/
def loan7 : Loan := ⟨12000, 12 / 100, ⟨2024, 10, 1⟩, 12⟩

/-- The level payment the engine computes for `loan7`. -/
def payment7 : ℚ := 12000 * ((12 / 100 / 12) / (1 - (1 + 12 / 100 / 12) ^ (-(12 : ℤ))))

/-! ### Rounding helpers -/

theorem round2_isCents (q : ℚ) : isCents (round2 q) := ⟨⌊q * 100 + 1 / 2⌋, rfl⟩

theorem round2_sub_cents (a b : ℚ) (hb : isCents b) : round2 (a - b) = round2 a - b := by
  obtain ⟨k, rfl⟩ := hb
  unfold round2
  have h : (a - (k : ℚ) / 100) * 100 + 1 / 2 = a * 100 + 1 / 2 - (k : ℚ) := by ring
  rw [h, Int.floor_sub_int]
  push_cast
  ring

theorem round2_zero : round2 0 = 0 := by
  unfold round2
  norm_num

theorem round2_neg_cents (b : ℚ) (hb : isCents b) : round2 (0 - b) = -b := by
  rw [round2_sub_cents 0 b hb, round2_zero]
  ring

/-- The fiscal window for start year 2024, one year. -/
theorem months_2024_1 : generateMonths 2024 1 =
    [24297, 24298, 24299, 24300, 24301, 24302, 24303, 24304, 24305, 24306, 24307, 24308] := by
  decide

/-! ### The cumulative-cash recurrence (C1) -/

theorem cumCashList_getD (cin cout : MMap) (ms : List Int) :
    ∀ (c : ℚ) (i : Nat), i < ms.length →
      (cumCashList cin cout ms c).getD i 0 =
        (if i = 0 then c else (cumCashList cin cout ms c).getD (i - 1) 0) +
          (cin (ms.getD i 0) - cout (ms.getD i 0)) := by
  induction ms with
  | nil => intro c i hi; simp at hi
  | cons m rest ih =>
    intro c i hi
    cases i with
    | zero => simp [cumCashList]
    | succ j =>
      have hj : j < rest.length := by simpa using hi
      have IH := ih (c + (cin m - cout m)) j hj
      simp only [cumCashList, List.getD_cons_succ, Nat.succ_sub_one, Nat.succ_ne_zero,
        if_false]
      rw [IH]
      cases j with
      | zero => simp [cumCashList]
      | succ k => simp [cumCashList]

theorem buildBreakdown_cash_getD (rev var fc am li lp cin cout : MMap) (ms : List Int) :
    ∀ (c : ℚ) (i : Nat), i < ms.length →
      ((buildBreakdown rev var fc am li lp cin cout ms c).getD i default).cash =
        round2 ((cumCashList cin cout ms c).getD i 0) := by
  induction ms with
  | nil => intro c i hi; simp at hi
  | cons m rest ih =>
    intro c i hi
    cases i with
    | zero => simp [buildBreakdown, cumCashList]
    | succ j =>
      have hj : j < rest.length := by simpa using hi
      simpa [buildBreakdown, cumCashList] using ih (c + (cin m - cout m)) j hj

/-- C1: every projection returned by `compute_projection` satisfies the cash
recurrence exactly on the full-precision cumulative cash — the cash before the
first month is the caller-supplied initial balance, each month adds that
month's cash inflow minus that month's cash outflow, and the reported `cash`
field of month `i` is the 2-decimal rounding of the `i`-th cumulative value. -/
theorem c1_cash_recurrence (db : Database) (sy ys : Int) (init : ℚ)
    (rev var fc am li lp cin cout : MMap)
    (h : projParts db (generateMonths sy ys) = some (rev, var, fc, am, li, lp, cin, cout)) :
    computeProjection db sy ys init =
      some (buildBreakdown rev var fc am li lp cin cout (generateMonths sy ys) init) ∧
    ∀ i : Nat, i < (generateMonths sy ys).length →
      ((buildBreakdown rev var fc am li lp cin cout (generateMonths sy ys) init).getD i
            default).cash =
          round2 ((cumCashList cin cout (generateMonths sy ys) init).getD i 0) ∧
        (cumCashList cin cout (generateMonths sy ys) init).getD i 0 =
          (if i = 0 then init
           else (cumCashList cin cout (generateMonths sy ys) init).getD (i - 1) 0) +
            (cin ((generateMonths sy ys).getD i 0) - cout ((generateMonths sy ys).getD i 0)) := by
  constructor
  · rw [computeProjection, h]
  · intro i hi
    exact ⟨buildBreakdown_cash_getD rev var fc am li lp cin cout (generateMonths sy ys) init i hi,
      cumCashList_getD cin cout (generateMonths sy ys) init i hi⟩

theorem c1_witness :
    computeProjection emptyDb 2024 1 0 =
      some (buildBreakdown mzero mzero mzero mzero mzero mzero mzero mzero
        (generateMonths 2024 1) 0) ∧
    ∀ i : Nat, i < (generateMonths 2024 1).length →
      ((buildBreakdown mzero mzero mzero mzero mzero mzero mzero mzero (generateMonths 2024 1)
            0).getD i default).cash =
          round2 ((cumCashList mzero mzero (generateMonths 2024 1) 0).getD i 0) ∧
        (cumCashList mzero mzero (generateMonths 2024 1) 0).getD i 0 =
          (if i = 0 then 0
           else (cumCashList mzero mzero (generateMonths 2024 1) 0).getD (i - 1) 0) +
            (mzero ((generateMonths 2024 1).getD i 0) - mzero ((generateMonths 2024 1).getD i 0)) :=
  c1_cash_recurrence emptyDb 2024 1 0 mzero mzero mzero mzero mzero mzero mzero mzero rfl

/-! ### Degenerate loan inputs (C2) -/

/-- C2: the scheduling step performs no validation at all: a loan with
`annual_rate = 0` (zero annuity denominator) or `term_months = 0` reaches the
level-payment division and raises `ZeroDivisionError` (modelled as `none`)
instead of being rejected as a validation error. -/
theorem c2_degenerate_loans_crash :
    computeProjection loanDb0 2024 1 0 = none ∧ computeProjection loanDbT0 2024 1 0 = none := by
  constructor <;>
    norm_num [computeProjection, projParts, loansPass, assetsPass, processLoan, loanPayment,
      monthlyRate, fixedPass, contractsPass, loanDb0, loanDbT0, List.foldlM]

/-! ### Explicit payment events suppress the synthetic plan (C4) -/

/-- C4: when a contract has at least one explicit payment event due inside the
window, the resolved plan is exactly the in-window explicit events (month
start of the due date, amount), with no recurrence-derived entries added. -/
theorem c4_explicit_overrides (db : Database) (c : Contract) (months : List Int)
    (h : sessionPaymentEvents db c months ≠ []) :
    collectPaymentPlan db c months = sessionPaymentEvents db c months ∧
    sessionPaymentEvents db c months =
      (db.payment_events.filter fun e =>
          (some e.contract_id == c.id) && decide (monthStart e.due_date ∈ months)).map
        fun e => (monthStart e.due_date, e.amount) := by
  have ht : natIdTruthy c.id = true := by
    by_contra hf
    have hx : natIdTruthy c.id = false := by simpa using hf
    exact h (by simp [sessionPaymentEvents, hx])
  constructor
  · simp [collectPaymentPlan, ht, h]
  · simp [sessionPaymentEvents, ht]

theorem c4_witness :
    collectPaymentPlan c4db c4contract (generateMonths 2024 1) =
        sessionPaymentEvents c4db c4contract (generateMonths 2024 1) ∧
      sessionPaymentEvents c4db c4contract (generateMonths 2024 1) =
        (c4db.payment_events.filter fun e =>
            (some e.contract_id == c4contract.id) &&
              decide (monthStart e.due_date ∈ generateMonths 2024 1)).map
          fun e => (monthStart e.due_date, e.amount) :=
  c4_explicit_overrides c4db c4contract (generateMonths 2024 1) (by decide)

/-! ### Category totality of the actuals aggregation (C10) -/

/-- C10: `aggregate_actuals` returns normally exactly when every entry's
category string matches one of the six pre-populated bucket keys; an entry
with any other category string makes the bucket lookup fail (`KeyError`,
modelled as `none`). -/
theorem c10_category_totality (entries : List ActualEntry) (acc : AMap) :
    (aggregateActuals entries acc).isSome ↔
      ∀ e ∈ entries, (ActualCategory.ofString e.category).isSome := by
  induction entries generalizing acc with
  | nil => simp [aggregateActuals]
  | cons e rest ih =>
    cases hc : ActualCategory.ofString e.category with
    | none => simp [aggregateActuals, hc]
    | some c => simp [aggregateActuals, hc, ih]

theorem c10_witness :
    (aggregateActuals [⟨⟨2024, 10, 3⟩, "revenue", 5⟩] (fun _ _ => 0)).isSome :=
  (c10_category_totality [⟨⟨2024, 10, 3⟩, "revenue", 5⟩] (fun _ _ => 0)).mpr
    (by simp [ActualCategory.ofString])

/-! ### Variable-cost rate attribution (C5) -/

/-- C5 counterexample: a license offer whose `variable_cost_rate` is set to 0
is charged at the 0.88 default (Python `rate or 0.88` treats a stored 0 as
unset), so the month's variable cost is 88, not `amount * 0 = 0` as the claim
requires for a rate that is set to 0. -/
theorem c5_counterexample :
    (((computeProjection c5db 2024 1 0).getD []).getD 0 default).variable_costs = 88 ∧
      (((computeProjection c5db 2024 1 0).getD []).getD 0 default).variable_costs ≠
        c5contract.total_value * 0 := by
  have h : (((computeProjection c5db 2024 1 0).getD []).getD 0 default).variable_costs = 88 := by
    rw [computeProjection, months_2024_1]
    norm_num [projParts, loansPass, assetsPass, processLoan, loanPayment,
      monthlyRate, fixedPass, contractsPass, applyContract, collectPaymentPlan,
      sessionPaymentEvents, natIdTruthy, ensureOfferMap, applyPlanEntry,
      monthStart, buildBreakdown, addAt, mzero, pyOr, round2,
      c5db, c5offer, c5contract, List.foldlM]
  exact ⟨h, by rw [h]; norm_num [c5contract]⟩

/-- C5 amended: one in-window plan entry (month, amount) increases that
month's variable cost by `amount * rate` where rate is the offer's
`variable_cost_rate` when set and nonzero; for license offers with the rate
unset or set to 0 the rate is 0.88; otherwise the contribution is 0. -/
theorem c5_amended (months : List Int) (c : Contract) (o : Offer) (s : RevState)
    (e : Int × ℚ) (h : e.1 ∈ months) :
    ∀ m, (applyPlanEntry months c o s e).variable_costs m =
      s.variable_costs m + (if m = e.1 then e.2 * effectiveRate o else 0) := by
  intro m
  unfold applyPlanEntry effectiveRate addAt pyOr ratTruthy
  rw [if_pos h]
  cases hr : o.variable_cost_rate with
  | none =>
    by_cases hl : o.offer_type = OfferType.license
    · simp only [hl]
      split_ifs <;> simp_all
    · have hb : (o.offer_type == OfferType.license) = false := by
        simpa using hl
      simp only [hb]
      split_ifs <;> simp_all
  | some r =>
    by_cases hl : o.offer_type = OfferType.license
    · simp only [hl]
      by_cases hz : r = 0
      · subst hz
        split_ifs <;> simp_all
      · split_ifs <;> simp_all
    · have hb : (o.offer_type == OfferType.license) = false := by
        simpa using hl
      simp only [hb]
      by_cases hz : r = 0
      · subst hz
        split_ifs <;> simp_all
      · split_ifs <;> simp_all

theorem c5_amended_witness :
    (applyPlanEntry [(0 : Int)] c5contract c5offer ⟨mzero, mzero, mzero⟩
        ((0 : Int), (100 : ℚ))).variable_costs 0 =
      mzero 0 + (if (0 : Int) = (0 : Int) then (100 : ℚ) * effectiveRate c5offer else 0) :=
  c5_amended [(0 : Int)] c5contract c5offer ⟨mzero, mzero, mzero⟩ ((0 : Int), (100 : ℚ))
    (by decide) 0

/-! ### Out-of-window plan entries contribute nothing (C9) -/

/-- C9: a one-time contract whose start month lies outside the generated
calendar window still produces its plan entry, but the entry is discarded at
aggregation time: every monthly revenue, variable-cost and cash-inflow total
stays 0. -/
theorem c9_out_of_window (db : Database) (c : Contract) (sy ys : Int)
    (hc : db.contracts = [c]) (hrec : c.recurrence = Recurrence.one_time)
    (hE : sessionPaymentEvents db c (generateMonths sy ys) = [])
    (hout : monthStart c.start_date ∉ generateMonths sy ys) :
    collectPaymentPlan db c (generateMonths sy ys) =
        [(monthStart c.start_date, c.total_value * (c.quantity : ℚ))] ∧
      ∀ m : Int, (contractsPass db (generateMonths sy ys)).revenue m = 0 ∧
        (contractsPass db (generateMonths sy ys)).variable_costs m = 0 ∧
        (contractsPass db (generateMonths sy ys)).cash_inflows m = 0 := by
  have hplan : collectPaymentPlan db c (generateMonths sy ys) =
      [(monthStart c.start_date, c.total_value * (c.quantity : ℚ))] := by
    unfold collectPaymentPlan
    cases ht : natIdTruthy c.id <;> simp [ht, hE, hrec]
  refine ⟨hplan, ?_⟩
  intro m
  unfold contractsPass
  rw [hc]
  simp only [List.foldl_cons, List.foldl_nil]
  unfold applyContract
  cases ho : ensureOfferMap db.offers c.offer_id with
  | none => simp [mzero]
  | some o =>
    rw [hplan]
    simp only [List.foldl_cons, List.foldl_nil]
    unfold applyPlanEntry
    rw [if_neg hout]
    simp [mzero]

theorem c9_witness :
    collectPaymentPlan c9db c9contract (generateMonths 2024 1) =
        [(monthStart c9contract.start_date,
          c9contract.total_value * (c9contract.quantity : ℚ))] ∧
      ∀ m : Int, (contractsPass c9db (generateMonths 2024 1)).revenue m = 0 ∧
        (contractsPass c9db (generateMonths 2024 1)).variable_costs m = 0 ∧
        (contractsPass c9db (generateMonths 2024 1)).cash_inflows m = 0 :=
  c9_out_of_window c9db c9contract 2024 1 rfl rfl rfl (by decide)

/-! ### Asset amortization schedule (C6) -/

theorem assetFold_spec (months : List Int) (a : Asset) (s0 : MMap × MMap) :
    ∀ (k : Nat) (m : Int),
      ((List.range k).foldl (assetStep months a) s0).1 m =
          s0.1 m +
            (if m ∈ months ∧ monthStart a.purchase_date ≤ m ∧
                m < monthStart a.purchase_date + (k : Int)
             then a.purchase_amount / (a.amortization_months : ℚ) else 0) ∧
        ((List.range k).foldl (assetStep months a) s0).2 m =
          s0.2 m +
            (if m ∈ months ∧ m = monthStart a.purchase_date ∧ 0 < k
             then a.purchase_amount else 0) := by
  intro k
  induction k with
  | zero =>
    intro m
    constructor <;> simp
  | succ n ih =>
    intro m
    obtain ⟨ih1, ih2⟩ := ih m
    rw [List.range_succ, List.foldl_append, List.foldl_cons, List.foldl_nil]
    simp only [assetStep]
    by_cases hmem : monthStart a.purchase_date + (n : Int) ∈ months
    · rw [if_pos hmem]
      constructor
      · simp only [addAt]
        by_cases hm : m = monthStart a.purchase_date + (n : Int)
        · have hold : ¬(m ∈ months ∧ monthStart a.purchase_date ≤ m ∧
              m < monthStart a.purchase_date + (n : Int)) := by
            rintro ⟨-, -, h3⟩
            omega
          have hnew : m ∈ months ∧ monthStart a.purchase_date ≤ m ∧
              m < monthStart a.purchase_date + ((n : Int) + 1) := by
            refine ⟨hm ▸ hmem, by omega, by omega⟩
          rw [if_pos hm, ih1, if_neg hold]
          push_cast
          rw [if_pos hnew]
          ring
        · have hiff : (m ∈ months ∧ monthStart a.purchase_date ≤ m ∧
                m < monthStart a.purchase_date + (n : Int)) ↔
              (m ∈ months ∧ monthStart a.purchase_date ≤ m ∧
                m < monthStart a.purchase_date + ((n : Int) + 1)) := by
            constructor
            · rintro ⟨h1, h2, h3⟩
              exact ⟨h1, h2, by omega⟩
            · rintro ⟨h1, h2, h3⟩
              exact ⟨h1, h2, by omega⟩
          rw [if_neg hm, ih1]
          push_cast
          simp only [hiff]
      · simp only [addAt]
        by_cases hm : m = monthStart a.purchase_date + (n : Int)
        · cases n with
          | zero =>
            have hold : ¬(m ∈ months ∧ m = monthStart a.purchase_date ∧ 0 < 0) := by
              rintro ⟨-, -, h3⟩
              omega
            have hmp : m = monthStart a.purchase_date := by omega
            have hnew : m ∈ months ∧ m = monthStart a.purchase_date ∧ 0 < 1 := by
              exact ⟨hm ▸ hmem, hmp, by omega⟩
            rw [if_pos hm, ih2, if_neg hold, if_pos rfl]
            simp only [Nat.zero_add]
            rw [if_pos hnew]
            ring
          | succ j =>
            have hmp : m ≠ monthStart a.purchase_date := by omega
            have hold : ¬(m ∈ months ∧ m = monthStart a.purchase_date ∧ 0 < j + 1) := by
              rintro ⟨-, h2, -⟩
              exact hmp h2
            have hnew : ¬(m ∈ months ∧ m = monthStart a.purchase_date ∧ 0 < j + 1 + 1) := by
              rintro ⟨-, h2, -⟩
              exact hmp h2
            rw [if_pos hm, ih2, if_neg hold, if_neg (by omega : ¬(j + 1 = 0)), if_neg hnew]
            ring
        · have hiff : (m ∈ months ∧ m = monthStart a.purchase_date ∧ 0 < n) ↔
              (m ∈ months ∧ m = monthStart a.purchase_date ∧ 0 < n + 1) := by
            constructor
            · rintro ⟨h1, h2, h3⟩
              exact ⟨h1, h2, by omega⟩
            · rintro ⟨h1, h2, h3⟩
              refine ⟨h1, h2, ?_⟩
              rcases Nat.eq_zero_or_pos n with hz | hp
              · subst hz
                exact absurd (by omega : m = monthStart a.purchase_date + ((0 : Nat) : Int)) hm
              · exact hp
          rw [if_neg hm, ih2]; simp only [hiff]
    · rw [if_neg hmem]
      constructor
      · rw [ih1]
        have hiff : (m ∈ months ∧ monthStart a.purchase_date ≤ m ∧
              m < monthStart a.purchase_date + (n : Int)) ↔
            (m ∈ months ∧ monthStart a.purchase_date ≤ m ∧
              m < monthStart a.purchase_date + ((n : Int) + 1)) := by
          constructor
          · rintro ⟨h1, h2, h3⟩
            exact ⟨h1, h2, by omega⟩
          · rintro ⟨h1, h2, h3⟩
            refine ⟨h1, h2, ?_⟩
            by_cases hm : m = monthStart a.purchase_date + (n : Int)
            · exact absurd (hm ▸ h1) hmem
            · omega
        push_cast
        simp only [hiff]
      · rw [ih2]
        have hiff : (m ∈ months ∧ m = monthStart a.purchase_date ∧ 0 < n) ↔
            (m ∈ months ∧ m = monthStart a.purchase_date ∧ 0 < n + 1) := by
          constructor
          · rintro ⟨h1, h2, h3⟩
            exact ⟨h1, h2, by omega⟩
          · rintro ⟨h1, h2, h3⟩
            refine ⟨h1, h2, ?_⟩
            rcases Nat.eq_zero_or_pos n with hz | hp
            · subst hz
              have : m = monthStart a.purchase_date + ((0 : Nat) : Int) := by omega
              exact absurd (this ▸ h1) hmem
            · exact hp
        simp only [hiff]

/-- C6: an asset with positive `amortization_months` adds the straight-line
charge `purchase_amount / amortization_months` to P&L amortization in each of
the `amortization_months` consecutive months from the purchase month that lie
inside the window, while the full `purchase_amount` is added to cash outflow
only in the purchase month (and only when that month is in the window). -/
theorem c6_asset_schedule (months : List Int) (a : Asset) (s0 s1 : MMap × MMap)
    (hn : 0 < a.amortization_months)
    (h : processAsset months s0 a = some s1) :
    ∀ m : Int,
      s1.1 m = s0.1 m +
          (if m ∈ months ∧ monthStart a.purchase_date ≤ m ∧
              m < monthStart a.purchase_date + a.amortization_months
           then a.purchase_amount / (a.amortization_months : ℚ) else 0) ∧
        s1.2 m = s0.2 m +
          (if m ∈ months ∧ m = monthStart a.purchase_date
           then a.purchase_amount else 0) := by
  have hne : a.amortization_months ≠ 0 := by omega
  have hs : s1 = (List.range a.amortization_months.toNat).foldl (assetStep months a) s0 := by
    unfold processAsset at h
    rw [if_neg hne] at h
    exact (Option.some.inj h).symm
  intro m
  obtain ⟨h1, h2⟩ := assetFold_spec months a s0 a.amortization_months.toNat m
  have hcast : ((a.amortization_months.toNat : Nat) : Int) = a.amortization_months := by omega
  have hpos : 0 < a.amortization_months.toNat := by omega
  rw [hs]
  constructor
  · rw [h1, hcast]
  · rw [h2]
    simp [hpos]

theorem c6_witness :
    ((processAsset (generateMonths 2024 1) (mzero, mzero) asset6).getD (mzero, mzero)).1 24297 =
        mzero 24297 +
          (if (24297 : Int) ∈ generateMonths 2024 1 ∧
              monthStart asset6.purchase_date ≤ 24297 ∧
              (24297 : Int) < monthStart asset6.purchase_date + asset6.amortization_months
           then asset6.purchase_amount / (asset6.amortization_months : ℚ) else 0) ∧
      ((processAsset (generateMonths 2024 1) (mzero, mzero) asset6).getD (mzero, mzero)).2 24297 =
        mzero 24297 +
          (if (24297 : Int) ∈ generateMonths 2024 1 ∧ (24297 : Int) = monthStart asset6.purchase_date
           then asset6.purchase_amount else 0) :=
  c6_asset_schedule (generateMonths 2024 1) asset6 (mzero, mzero)
    ((processAsset (generateMonths 2024 1) (mzero, mzero) asset6).getD (mzero, mzero))
    (by norm_num [asset6]) (by rfl) 24297

/-! ### Loan annuity schedule (C7) -/

theorem loanFold_spec (months : List Int) (p : Int) (payment r P : ℚ)
    (s0 : MMap × MMap × MMap) :
    ∀ k : Nat, (∀ i : Nat, i < k → p + (i : Int) ∈ months) →
      (((List.range k).foldl (loanStep months p payment r) (s0, P)).2 =
          loanBalance P payment r k) ∧
      ∀ m : Int,
        (((List.range k).foldl (loanStep months p payment r) (s0, P)).1.1 m =
            s0.1 m + (if p ≤ m ∧ m < p + (k : Int)
              then loanBalance P payment r (m - p).toNat * r else 0)) ∧
        (((List.range k).foldl (loanStep months p payment r) (s0, P)).1.2.1 m =
            s0.2.1 m + (if p ≤ m ∧ m < p + (k : Int)
              then payment - loanBalance P payment r (m - p).toNat * r else 0)) ∧
        (((List.range k).foldl (loanStep months p payment r) (s0, P)).1.2.2 m =
            s0.2.2 m + (if p ≤ m ∧ m < p + (k : Int) then payment else 0)) := by
  intro k
  induction k with
  | zero =>
    intro _
    refine ⟨rfl, ?_⟩
    intro m
    refine ⟨?_, ?_, ?_⟩ <;> simp
  | succ n ih =>
    intro hw
    have hwn : ∀ i : Nat, i < n → p + (i : Int) ∈ months := fun i hi => hw i (by omega)
    obtain ⟨ihb, ihm⟩ := ih hwn
    have hmem := hw n (by omega)
    rw [List.range_succ, List.foldl_append, List.foldl_cons, List.foldl_nil]
    simp only [loanStep]
    rw [if_pos hmem]
    refine ⟨?_, ?_⟩
    · show _ - (payment - _ * r) = loanBalance P payment r (n + 1)
      rw [ihb]
      rfl
    · intro m
      obtain ⟨ih1, ih2, ih3⟩ := ihm m
      refine ⟨?_, ?_, ?_⟩
      · simp only [addAt]
        by_cases hm : m = p + (n : Int)
        · have ht : (m - p).toNat = n := by omega
          have hold : ¬(p ≤ m ∧ m < p + (n : Int)) := by omega
          have hnew : p ≤ m ∧ m < p + ((n : Int) + 1) := by omega
          rw [if_pos hm, ih1, if_neg hold, ihb]
          push_cast
          rw [if_pos hnew, ht]
          ring
        · have hiff : (p ≤ m ∧ m < p + (n : Int)) ↔ (p ≤ m ∧ m < p + ((n : Int) + 1)) := by
            omega
          rw [if_neg hm, ih1]
          push_cast
          simp only [hiff]
      · simp only [addAt]
        by_cases hm : m = p + (n : Int)
        · have ht : (m - p).toNat = n := by omega
          have hold : ¬(p ≤ m ∧ m < p + (n : Int)) := by omega
          have hnew : p ≤ m ∧ m < p + ((n : Int) + 1) := by omega
          rw [if_pos hm, ih2, if_neg hold, ihb]
          push_cast
          rw [if_pos hnew, ht]
          ring
        · have hiff : (p ≤ m ∧ m < p + (n : Int)) ↔ (p ≤ m ∧ m < p + ((n : Int) + 1)) := by
            omega
          rw [if_neg hm, ih2]
          push_cast
          simp only [hiff]
      · simp only [addAt]
        by_cases hm : m = p + (n : Int)
        · have hold : ¬(p ≤ m ∧ m < p + (n : Int)) := by omega
          have hnew : p ≤ m ∧ m < p + ((n : Int) + 1) := by omega
          rw [if_pos hm, ih3, if_neg hold]
          push_cast
          rw [if_pos hnew]
          ring
        · have hiff : (p ≤ m ∧ m < p + (n : Int)) ↔ (p ≤ m ∧ m < p + ((n : Int) + 1)) := by
            omega
          rw [if_neg hm, ih3]
          push_cast
          simp only [hiff]

theorem loanBalance_closed (P payment r : ℚ) (hr : r ≠ 0) :
    ∀ k : Nat, loanBalance P payment r k = (P - payment / r) * (1 + r) ^ k + payment / r := by
  intro k
  induction k with
  | zero => simp [loanBalance]
  | succ n ih =>
    show loanBalance P payment r n - (payment - loanBalance P payment r n * r) = _
    rw [ih]
    field_simp
    ring

theorem loanPayment_some_eq (l : Loan) (payment : ℚ)
    (hp : loanPayment l = some payment) :
    payment = l.principal * (monthlyRate l / (1 - (1 + monthlyRate l) ^ (-l.term_months))) ∧
      1 - (1 + monthlyRate l) ^ (-l.term_months) ≠ 0 ∧
      ¬(1 + monthlyRate l = 0 ∧ 0 < l.term_months) := by
  unfold loanPayment at hp
  by_cases h0 : 1 + monthlyRate l = 0 ∧ 0 < l.term_months
  · rw [if_pos h0] at hp
    exact absurd hp (by simp)
  · rw [if_neg h0] at hp
    by_cases hd : 1 - (1 + monthlyRate l) ^ (-l.term_months) = 0
    · rw [if_pos hd] at hp
      exact absurd hp (by simp)
    · rw [if_neg hd] at hp
      exact ⟨(Option.some.inj hp).symm, hd, h0⟩

theorem loanRate_ne_zero (l : Loan) (payment : ℚ) (hp : loanPayment l = some payment) :
    monthlyRate l ≠ 0 := by
  intro hc
  have hd := (loanPayment_some_eq l payment hp).2.1
  apply hd
  rw [hc]
  norm_num

theorem loanBalance_final (l : Loan) (payment : ℚ) (hp : loanPayment l = some payment)
    (hn : 0 < l.term_months) :
    loanBalance l.principal payment (monthlyRate l) l.term_months.toNat = 0 := by
  obtain ⟨hpay, hd, h0⟩ := loanPayment_some_eq l payment hp
  have hrne : monthlyRate l ≠ 0 := loanRate_ne_zero l payment hp
  have h1r : (1 : ℚ) + monthlyRate l ≠ 0 := fun hc => h0 ⟨hc, hn⟩
  have hA : ((1 + monthlyRate l) ^ l.term_months : ℚ) ≠ 0 := zpow_ne_zero _ h1r
  have hcast : ((l.term_months.toNat : ℕ) : ℤ) = l.term_months := by omega
  have hpow : ((1 + monthlyRate l) ^ (l.term_months.toNat : ℕ) : ℚ) =
      (1 + monthlyRate l) ^ (l.term_months : ℤ) := by
    rw [← zpow_natCast (1 + monthlyRate l) l.term_months.toNat, hcast]
  have hinv : ((1 + monthlyRate l) ^ (-l.term_months) : ℚ) =
      ((1 + monthlyRate l) ^ (l.term_months : ℤ))⁻¹ := by
    rw [zpow_neg]
  rw [loanBalance_closed l.principal payment (monthlyRate l) hrne, hpay, hpow]
  rw [hinv] at hd ⊢
  have hA1 : ((1 + monthlyRate l) ^ l.term_months : ℚ) ≠ 1 := by
    intro hc
    apply hd
    rw [hc]
    norm_num
  have hA1s : ((1 + monthlyRate l) ^ l.term_months : ℚ) - 1 ≠ 0 := sub_ne_zero.mpr hA1
  field_simp
  ring

theorem loanPrincipal_sum (P payment r : ℚ) :
    ∀ k : Nat, (∑ i in Finset.range k, (payment - loanBalance P payment r i * r)) =
      P - loanBalance P payment r k := by
  intro k
  induction k with
  | zero => simp [loanBalance]
  | succ n ih =>
    rw [Finset.sum_range_succ, ih]
    show _ = P - loanBalance P payment r (n + 1)
    rw [show loanBalance P payment r (n + 1) =
      loanBalance P payment r n - (payment - loanBalance P payment r n * r) from rfl]
    ring

/-- C7: for a loan scheduled by `compute_projection` whose full term lies
inside the window, the cash outflow added in every covered month is the same
constant — the level payment
`principal * monthly_rate / (1 - (1 + monthly_rate) ** (-term_months))` — and
the monthly principal portions added to the principal map sum exactly to the
original principal (hence within the 1-cent tolerance). -/
theorem c7_loan_annuity (months : List Int) (l : Loan) (s0 s1 : MMap × MMap × MMap)
    (payment : ℚ) (hp : loanPayment l = some payment) (hn : 0 < l.term_months)
    (hw : ∀ i : Nat, i < l.term_months.toNat → monthStart l.start_date + (i : Int) ∈ months)
    (h : processLoan months s0 l = some s1) :
    payment = l.principal * (monthlyRate l / (1 - (1 + monthlyRate l) ^ (-l.term_months))) ∧
    (∑ i in Finset.range l.term_months.toNat,
        (payment - loanBalance l.principal payment (monthlyRate l) i * monthlyRate l)) =
      l.principal ∧
    |(∑ i in Finset.range l.term_months.toNat,
        (payment - loanBalance l.principal payment (monthlyRate l) i * monthlyRate l)) -
      l.principal| ≤ 1 / 100 ∧
    ∀ i : Nat, i < l.term_months.toNat →
      s1.2.1 (monthStart l.start_date + (i : Int)) =
          s0.2.1 (monthStart l.start_date + (i : Int)) +
            (payment - loanBalance l.principal payment (monthlyRate l) i * monthlyRate l) ∧
        s1.2.2 (monthStart l.start_date + (i : Int)) =
          s0.2.2 (monthStart l.start_date + (i : Int)) + payment := by
  have hpay := (loanPayment_some_eq l payment hp).1
  have hsum : (∑ i in Finset.range l.term_months.toNat,
      (payment - loanBalance l.principal payment (monthlyRate l) i * monthlyRate l)) =
      l.principal := by
    rw [loanPrincipal_sum, loanBalance_final l payment hp hn]
    ring
  have hs : s1 = ((List.range l.term_months.toNat).foldl
      (loanStep months (monthStart l.start_date) payment (monthlyRate l))
      (s0, l.principal)).1 := by
    rw [processLoan, hp] at h
    exact (Option.some.inj h).symm
  refine ⟨hpay, hsum, by rw [hsum, sub_self, abs_zero]; norm_num, ?_⟩
  intro i hi
  obtain ⟨-, hmaps⟩ := loanFold_spec months (monthStart l.start_date) payment (monthlyRate l)
    l.principal s0 l.term_months.toNat hw
  obtain ⟨-, h2, h3⟩ := hmaps (monthStart l.start_date + (i : Int))
  have hcond : monthStart l.start_date ≤ monthStart l.start_date + (i : Int) ∧
      monthStart l.start_date + (i : Int) <
        monthStart l.start_date + ((l.term_months.toNat : Nat) : Int) := by omega
  have ht : ((monthStart l.start_date + (i : Int)) - monthStart l.start_date).toNat = i := by
    omega
  rw [hs]
  constructor
  · rw [h2, if_pos hcond, ht]
  · rw [h3, if_pos hcond]

theorem c7_witness :
    payment7 = loan7.principal *
        (monthlyRate loan7 / (1 - (1 + monthlyRate loan7) ^ (-loan7.term_months))) ∧
    (∑ i in Finset.range loan7.term_months.toNat,
        (payment7 - loanBalance loan7.principal payment7 (monthlyRate loan7) i *
          monthlyRate loan7)) = loan7.principal ∧
    |(∑ i in Finset.range loan7.term_months.toNat,
        (payment7 - loanBalance loan7.principal payment7 (monthlyRate loan7) i *
          monthlyRate loan7)) - loan7.principal| ≤ 1 / 100 ∧
    ∀ i : Nat, i < loan7.term_months.toNat →
      ((processLoan (generateMonths 2024 1) (mzero, mzero, mzero) loan7).getD
            (mzero, mzero, mzero)).2.1 (monthStart loan7.start_date + (i : Int)) =
          mzero (monthStart loan7.start_date + (i : Int)) +
            (payment7 - loanBalance loan7.principal payment7 (monthlyRate loan7) i *
              monthlyRate loan7) ∧
        ((processLoan (generateMonths 2024 1) (mzero, mzero, mzero) loan7).getD
            (mzero, mzero, mzero)).2.2 (monthStart loan7.start_date + (i : Int)) =
          mzero (monthStart loan7.start_date + (i : Int)) + payment7 := by
  have hp : loanPayment loan7 = some payment7 := by
    norm_num [loanPayment, monthlyRate, loan7, payment7]
  have h : processLoan (generateMonths 2024 1) (mzero, mzero, mzero) loan7 =
      some ((processLoan (generateMonths 2024 1) (mzero, mzero, mzero) loan7).getD
        (mzero, mzero, mzero)) := by
    rw [processLoan, hp]
    rfl
  exact c7_loan_annuity (generateMonths 2024 1) loan7 (mzero, mzero, mzero)
    ((processLoan (generateMonths 2024 1) (mzero, mzero, mzero) loan7).getD
      (mzero, mzero, mzero))
    payment7 hp (by norm_num [loan7]) (by decide) h

/-! ### Variance rows (C3, C8) -/

theorem buildBreakdown_length (rev var fc am li lp cin cout : MMap) :
    ∀ (ms : List Int) (c : ℚ),
      (buildBreakdown rev var fc am li lp cin cout ms c).length = ms.length := by
  intro ms
  induction ms with
  | nil => intro c; rfl
  | cons m rest ih =>
    intro c
    simp only [buildBreakdown, List.length_cons, ih]

theorem buildBreakdown_centsB (rev var fc am li lp cin cout : MMap) :
    ∀ (ms : List Int) (c : ℚ) (b : MonthlyBreakdown),
      b ∈ buildBreakdown rev var fc am li lp cin cout ms c → centsB b := by
  intro ms
  induction ms with
  | nil =>
    intro c b hb
    simp [buildBreakdown] at hb
  | cons m rest ih =>
    intro c b hb
    simp only [buildBreakdown] at hb
    rcases List.mem_cons.mp hb with hb | hb
    · subst hb
      exact ⟨round2_isCents _, round2_isCents _, round2_isCents _, round2_isCents _,
        round2_isCents _, round2_isCents _, round2_isCents _, round2_isCents _⟩
    · exact ih _ b hb

theorem mkRow_variances (b : MonthlyBreakdown) (ma : ActualCategory → ℚ) (ac : ℚ)
    (hb : centsB b) :
    (mkRow b ma ac).variance_revenue =
        (mkRow b ma ac).actual_revenue - (mkRow b ma ac).budget_revenue ∧
      (mkRow b ma ac).variance_variable =
        (mkRow b ma ac).actual_variable - (mkRow b ma ac).budget_variable ∧
      (mkRow b ma ac).variance_fixed =
        (mkRow b ma ac).actual_fixed - (mkRow b ma ac).budget_fixed ∧
      (mkRow b ma ac).variance_amortization =
        (mkRow b ma ac).actual_amortization - (mkRow b ma ac).budget_amortization ∧
      (mkRow b ma ac).variance_interest =
        (mkRow b ma ac).actual_interest - (mkRow b ma ac).budget_interest ∧
      (mkRow b ma ac).variance_principal =
        (mkRow b ma ac).actual_principal - (mkRow b ma ac).budget_principal ∧
      (mkRow b ma ac).variance_ebt =
        (mkRow b ma ac).actual_ebt - (mkRow b ma ac).budget_ebt ∧
      (mkRow b ma ac).variance_cash =
        (mkRow b ma ac).actual_cash - (mkRow b ma ac).budget_cash := by
  obtain ⟨h1, h2, h3, h4, h5, h6, h7, h8⟩ := hb
  simp only [mkRow]
  exact ⟨round2_sub_cents _ _ h1, round2_sub_cents _ _ h2, round2_sub_cents _ _ h3,
    round2_sub_cents _ _ h4, round2_sub_cents _ _ h5, round2_sub_cents _ _ h6,
    round2_sub_cents _ _ h7, round2_sub_cents _ _ h8⟩

theorem bvaRows_length (actuals : AMap) :
    ∀ (budget : List MonthlyBreakdown) (cash : ℚ),
      (bvaRows actuals budget cash).length = budget.length := by
  intro budget
  induction budget with
  | nil => intro cash; rfl
  | cons b rest ih =>
    intro cash
    simp only [bvaRows, List.length_cons, ih]

theorem bvaRows_mem (actuals : AMap) :
    ∀ (budget : List MonthlyBreakdown) (cash : ℚ) (r : BudgetVsActualRow),
      r ∈ bvaRows actuals budget cash →
      ∃ b, b ∈ budget ∧ ∃ ac, r = mkRow b (actuals b.month) ac := by
  intro budget
  induction budget with
  | nil =>
    intro cash r hr
    simp [bvaRows] at hr
  | cons b rest ih =>
    intro cash r hr
    simp only [bvaRows] at hr
    rcases List.mem_cons.mp hr with hr | hr
    · exact ⟨b, List.mem_cons_self b rest, _, hr⟩
    · obtain ⟨b2, hb2, ac, hac⟩ := ih _ r hr
      exact ⟨b2, List.mem_cons_of_mem b hb2, ac, hac⟩

/-- C3: every row of `compute_budget_vs_actual` satisfies
`variance = actual - budget` exactly for every line item, where both operands
are the reported (already rounded) values: the budget side as rounded by the
projection and the actual side as rounded at output. -/
theorem c3_variances (db : Database) (sy ys : Int) (init : ℚ)
    (rows : List BudgetVsActualRow)
    (h : computeBudgetVsActual db sy ys init = some rows) :
    ∀ r ∈ rows,
      r.variance_revenue = r.actual_revenue - r.budget_revenue ∧
      r.variance_variable = r.actual_variable - r.budget_variable ∧
      r.variance_fixed = r.actual_fixed - r.budget_fixed ∧
      r.variance_amortization = r.actual_amortization - r.budget_amortization ∧
      r.variance_interest = r.actual_interest - r.budget_interest ∧
      r.variance_principal = r.actual_principal - r.budget_principal ∧
      r.variance_ebt = r.actual_ebt - r.budget_ebt ∧
      r.variance_cash = r.actual_cash - r.budget_cash := by
  rw [computeBudgetVsActual] at h
  cases hcp : computeProjection db sy ys init with
  | none =>
    rw [hcp] at h
    exact absurd h (by simp)
  | some budget =>
    rw [hcp] at h
    cases hag : aggregateActuals db.actual_entries (fun _ _ => 0) with
    | none =>
      rw [hag] at h
      exact absurd h (by simp)
    | some actuals =>
      rw [hag] at h
      have hrows : rows = bvaRows actuals budget init := (Option.some.inj h).symm
      have hcents : ∀ b ∈ budget, centsB b := by
        rw [computeProjection] at hcp
        cases hpp : projParts db (generateMonths sy ys) with
        | none =>
          rw [hpp] at hcp
          exact absurd hcp (by simp)
        | some parts =>
          obtain ⟨rev, var, fc, am, li, lp, cin, cout⟩ := parts
          rw [hpp] at hcp
          have hb : budget =
              buildBreakdown rev var fc am li lp cin cout (generateMonths sy ys) init :=
            (Option.some.inj hcp).symm
          rw [hb]
          intro b hb2
          exact buildBreakdown_centsB rev var fc am li lp cin cout (generateMonths sy ys)
            init b hb2
      intro r hr
      rw [hrows] at hr
      obtain ⟨b, hbmem, ac, rfl⟩ := bvaRows_mem actuals budget init r hr
      exact mkRow_variances b (actuals b.month) ac (hcents b hbmem)

theorem c3_witness :
    ((bvaRows (fun _ _ => 0)
          (buildBreakdown mzero mzero mzero mzero mzero mzero mzero mzero
            (generateMonths 2024 1) 0) 0).getD 0 default).variance_revenue =
        ((bvaRows (fun _ _ => 0)
          (buildBreakdown mzero mzero mzero mzero mzero mzero mzero mzero
            (generateMonths 2024 1) 0) 0).getD 0 default).actual_revenue -
        ((bvaRows (fun _ _ => 0)
          (buildBreakdown mzero mzero mzero mzero mzero mzero mzero mzero
            (generateMonths 2024 1) 0) 0).getD 0 default).budget_revenue ∧
      ((bvaRows (fun _ _ => 0)
          (buildBreakdown mzero mzero mzero mzero mzero mzero mzero mzero
            (generateMonths 2024 1) 0) 0).getD 0 default).variance_variable =
        ((bvaRows (fun _ _ => 0)
          (buildBreakdown mzero mzero mzero mzero mzero mzero mzero mzero
            (generateMonths 2024 1) 0) 0).getD 0 default).actual_variable -
        ((bvaRows (fun _ _ => 0)
          (buildBreakdown mzero mzero mzero mzero mzero mzero mzero mzero
            (generateMonths 2024 1) 0) 0).getD 0 default).budget_variable ∧
      ((bvaRows (fun _ _ => 0)
          (buildBreakdown mzero mzero mzero mzero mzero mzero mzero mzero
            (generateMonths 2024 1) 0) 0).getD 0 default).variance_fixed =
        ((bvaRows (fun _ _ => 0)
          (buildBreakdown mzero mzero mzero mzero mzero mzero mzero mzero
            (generateMonths 2024 1) 0) 0).getD 0 default).actual_fixed -
        ((bvaRows (fun _ _ => 0)
          (buildBreakdown mzero mzero mzero mzero mzero mzero mzero mzero
            (generateMonths 2024 1) 0) 0).getD 0 default).budget_fixed ∧
      ((bvaRows (fun _ _ => 0)
          (buildBreakdown mzero mzero mzero mzero mzero mzero mzero mzero
            (generateMonths 2024 1) 0) 0).getD 0 default).variance_amortization =
        ((bvaRows (fun _ _ => 0)
          (buildBreakdown mzero mzero mzero mzero mzero mzero mzero mzero
            (generateMonths 2024 1) 0) 0).getD 0 default).actual_amortization -
        ((bvaRows (fun _ _ => 0)
          (buildBreakdown mzero mzero mzero mzero mzero mzero mzero mzero
            (generateMonths 2024 1) 0) 0).getD 0 default).budget_amortization ∧
      ((bvaRows (fun _ _ => 0)
          (buildBreakdown mzero mzero mzero mzero mzero mzero mzero mzero
            (generateMonths 2024 1) 0) 0).getD 0 default).variance_interest =
        ((bvaRows (fun _ _ => 0)
          (buildBreakdown mzero mzero mzero mzero mzero mzero mzero mzero
            (generateMonths 2024 1) 0) 0).getD 0 default).actual_interest -
        ((bvaRows (fun _ _ => 0)
          (buildBreakdown mzero mzero mzero mzero mzero mzero mzero mzero
            (generateMonths 2024 1) 0) 0).getD 0 default).budget_interest ∧
      ((bvaRows (fun _ _ => 0)
          (buildBreakdown mzero mzero mzero mzero mzero mzero mzero mzero
            (generateMonths 2024 1) 0) 0).getD 0 default).variance_principal =
        ((bvaRows (fun _ _ => 0)
          (buildBreakdown mzero mzero mzero mzero mzero mzero mzero mzero
            (generateMonths 2024 1) 0) 0).getD 0 default).actual_principal -
        ((bvaRows (fun _ _ => 0)
          (buildBreakdown mzero mzero mzero mzero mzero mzero mzero mzero
            (generateMonths 2024 1) 0) 0).getD 0 default).budget_principal ∧
      ((bvaRows (fun _ _ => 0)
          (buildBreakdown mzero mzero mzero mzero mzero mzero mzero mzero
            (generateMonths 2024 1) 0) 0).getD 0 default).variance_ebt =
        ((bvaRows (fun _ _ => 0)
          (buildBreakdown mzero mzero mzero mzero mzero mzero mzero mzero
            (generateMonths 2024 1) 0) 0).getD 0 default).actual_ebt -
        ((bvaRows (fun _ _ => 0)
          (buildBreakdown mzero mzero mzero mzero mzero mzero mzero mzero
            (generateMonths 2024 1) 0) 0).getD 0 default).budget_ebt ∧
      ((bvaRows (fun _ _ => 0)
          (buildBreakdown mzero mzero mzero mzero mzero mzero mzero mzero
            (generateMonths 2024 1) 0) 0).getD 0 default).variance_cash =
        ((bvaRows (fun _ _ => 0)
          (buildBreakdown mzero mzero mzero mzero mzero mzero mzero mzero
            (generateMonths 2024 1) 0) 0).getD 0 default).actual_cash -
        ((bvaRows (fun _ _ => 0)
          (buildBreakdown mzero mzero mzero mzero mzero mzero mzero mzero
            (generateMonths 2024 1) 0) 0).getD 0 default).budget_cash := by
  have hlen : 0 < (bvaRows (fun _ _ => 0)
      (buildBreakdown mzero mzero mzero mzero mzero mzero mzero mzero
        (generateMonths 2024 1) 0) 0).length := by
    rw [bvaRows_length, buildBreakdown_length, months_2024_1]
    norm_num
  have hmem : (bvaRows (fun _ _ => 0)
      (buildBreakdown mzero mzero mzero mzero mzero mzero mzero mzero
        (generateMonths 2024 1) 0) 0).getD 0 default ∈
      bvaRows (fun _ _ => 0)
        (buildBreakdown mzero mzero mzero mzero mzero mzero mzero mzero
          (generateMonths 2024 1) 0) 0 := by
    rw [List.getD_eq_getElem _ default hlen]
    exact List.getElem_mem hlen
  exact c3_variances emptyDb 2024 1 0
    (bvaRows (fun _ _ => 0)
      (buildBreakdown mzero mzero mzero mzero mzero mzero mzero mzero
        (generateMonths 2024 1) 0) 0) rfl _ hmem

theorem aggregateActuals_zero_month :
    ∀ (entries : List ActualEntry) (acc f : AMap),
      aggregateActuals entries acc = some f →
      ∀ m : Int, (∀ e ∈ entries, monthStart e.entry_date ≠ m) →
      ∀ c : ActualCategory, f m c = acc m c := by
  intro entries
  induction entries with
  | nil =>
    intro acc f h m hm c
    have hacc : acc = f := by simpa [aggregateActuals] using h
    rw [← hacc]
  | cons e rest ih =>
    intro acc f h m hm c
    simp only [aggregateActuals] at h
    cases hc : ActualCategory.ofString e.category with
    | none =>
      rw [hc] at h
      exact absurd h (by simp)
    | some cat =>
      rw [hc] at h
      have hne : monthStart e.entry_date ≠ m := hm e (List.mem_cons_self e rest)
      have hrest := ih _ f h m (fun e2 he2 => hm e2 (List.mem_cons_of_mem e he2)) c
      rw [hrest]
      unfold addCat
      rw [if_neg]
      rintro ⟨h1, -⟩
      exact hne h1.symm

theorem bvaRows_month_getD (actuals : AMap) :
    ∀ (budget : List MonthlyBreakdown) (cash : ℚ) (i : Nat), i < budget.length →
      ((bvaRows actuals budget cash).getD i default).month =
        (budget.getD i default).month := by
  intro budget
  induction budget with
  | nil =>
    intro cash i hi
    simp at hi
  | cons b rest ih =>
    intro cash i hi
    cases i with
    | zero => simp [bvaRows, mkRow]
    | succ j =>
      have hj : j < rest.length := by simpa using hi
      simpa [bvaRows] using ih _ j hj

theorem mkRow_zero_bucket (b : MonthlyBreakdown) (ma : ActualCategory → ℚ) (ac : ℚ)
    (hb : centsB b) (hz : ∀ c, ma c = 0) :
    ((mkRow b ma ac).actual_revenue = 0 ∧ (mkRow b ma ac).actual_variable = 0 ∧
      (mkRow b ma ac).actual_fixed = 0 ∧ (mkRow b ma ac).actual_amortization = 0 ∧
      (mkRow b ma ac).actual_interest = 0 ∧ (mkRow b ma ac).actual_principal = 0 ∧
      (mkRow b ma ac).actual_ebt = 0) ∧
    ((mkRow b ma ac).variance_revenue = -(mkRow b ma ac).budget_revenue ∧
      (mkRow b ma ac).variance_variable = -(mkRow b ma ac).budget_variable ∧
      (mkRow b ma ac).variance_fixed = -(mkRow b ma ac).budget_fixed ∧
      (mkRow b ma ac).variance_amortization = -(mkRow b ma ac).budget_amortization ∧
      (mkRow b ma ac).variance_interest = -(mkRow b ma ac).budget_interest ∧
      (mkRow b ma ac).variance_principal = -(mkRow b ma ac).budget_principal ∧
      (mkRow b ma ac).variance_ebt = -(mkRow b ma ac).budget_ebt) := by
  obtain ⟨h1, h2, h3, h4, h5, h6, h7, h8⟩ := hb
  have e0 : (0 : ℚ) - 0 - 0 - 0 - 0 = 0 := by norm_num
  simp only [mkRow, hz, e0]
  exact ⟨⟨round2_zero, round2_zero, round2_zero, round2_zero, round2_zero, round2_zero,
      round2_zero⟩,
    ⟨round2_neg_cents _ h1, round2_neg_cents _ h2, round2_neg_cents _ h3,
      round2_neg_cents _ h4, round2_neg_cents _ h5, round2_neg_cents _ h6,
      round2_neg_cents _ h7⟩⟩

theorem bvaRows_zero_row (actuals : AMap) :
    ∀ (budget : List MonthlyBreakdown) (cash : ℚ) (i : Nat), i < budget.length →
      centsB (budget.getD i default) →
      (∀ c : ActualCategory, actuals ((budget.getD i default).month) c = 0) →
      (((bvaRows actuals budget cash).getD i default).actual_revenue = 0 ∧
        ((bvaRows actuals budget cash).getD i default).actual_variable = 0 ∧
        ((bvaRows actuals budget cash).getD i default).actual_fixed = 0 ∧
        ((bvaRows actuals budget cash).getD i default).actual_amortization = 0 ∧
        ((bvaRows actuals budget cash).getD i default).actual_interest = 0 ∧
        ((bvaRows actuals budget cash).getD i default).actual_principal = 0 ∧
        ((bvaRows actuals budget cash).getD i default).actual_ebt = 0) ∧
      (((bvaRows actuals budget cash).getD i default).variance_revenue =
          -((bvaRows actuals budget cash).getD i default).budget_revenue ∧
        ((bvaRows actuals budget cash).getD i default).variance_variable =
          -((bvaRows actuals budget cash).getD i default).budget_variable ∧
        ((bvaRows actuals budget cash).getD i default).variance_fixed =
          -((bvaRows actuals budget cash).getD i default).budget_fixed ∧
        ((bvaRows actuals budget cash).getD i default).variance_amortization =
          -((bvaRows actuals budget cash).getD i default).budget_amortization ∧
        ((bvaRows actuals budget cash).getD i default).variance_interest =
          -((bvaRows actuals budget cash).getD i default).budget_interest ∧
        ((bvaRows actuals budget cash).getD i default).variance_principal =
          -((bvaRows actuals budget cash).getD i default).budget_principal ∧
        ((bvaRows actuals budget cash).getD i default).variance_ebt =
          -((bvaRows actuals budget cash).getD i default).budget_ebt) := by
  intro budget
  induction budget with
  | nil =>
    intro cash i hi
    simp at hi
  | cons b rest ih =>
    intro cash i hi hb hz
    cases i with
    | zero =>
      simp only [bvaRows, List.getD_cons_zero] at hb hz ⊢
      exact mkRow_zero_bucket b (actuals b.month) _ hb hz
    | succ j =>
      have hj : j < rest.length := by simpa using hi
      simp only [bvaRows, List.getD_cons_succ] at hb hz ⊢
      exact ih _ j hj hb hz

/-- C8 counterexample: with no actual entries at all and an initial cash of
100, the first month of `compute_budget_vs_actual` has no `ActualEntry`, yet
its reported actual cash is 100 (not 0) and its cash variance is 0 (not the
negative of the budget cash of 100): the running actual cash balance is a
line item that does not become zero in a month with no actuals. -/
theorem c8_counterexample :
    emptyDb.actual_entries = [] ∧
    (((computeBudgetVsActual emptyDb 2024 1 100).getD []).getD 0 default).actual_cash = 100 ∧
    (((computeBudgetVsActual emptyDb 2024 1 100).getD []).getD 0 default).budget_cash = 100 ∧
    (((computeBudgetVsActual emptyDb 2024 1 100).getD []).getD 0 default).actual_cash ≠ 0 ∧
    (((computeBudgetVsActual emptyDb 2024 1 100).getD []).getD 0 default).variance_cash ≠
      -(((computeBudgetVsActual emptyDb 2024 1 100).getD []).getD 0 default).budget_cash := by
  have hrow : ((computeBudgetVsActual emptyDb 2024 1 100).getD []).getD 0 default =
      mkRow
        { month := 24297, revenue := round2 (mzero 24297),
          variable_costs := round2 (mzero 24297), fixed_costs := round2 (mzero 24297),
          amortization := round2 (mzero 24297), loan_interest := round2 (mzero 24297),
          loan_principal := round2 (mzero 24297),
          ebt := round2 (mzero 24297 - mzero 24297 - mzero 24297 - mzero 24297 - mzero 24297),
          cash := round2 (100 + (mzero 24297 - mzero 24297)) }
        (fun _ => 0) (100 + (0 - 0 - 0 - 0 - 0 - 0)) := by
    rw [show computeBudgetVsActual emptyDb 2024 1 100 =
        some (bvaRows (fun _ _ => 0)
          (buildBreakdown mzero mzero mzero mzero mzero mzero mzero mzero
            (generateMonths 2024 1) 100) 100) from rfl, months_2024_1]
    rfl
  refine ⟨rfl, ?_, ?_, ?_, ?_⟩ <;>
    rw [hrow] <;>
    norm_num [mkRow, round2, mzero]

/-- C8 amended: a month of the budget window with no `ActualEntry` never makes
`compute_budget_vs_actual` fail; its six per-category actual line items and
its actual EBT are 0 and their variances equal the negative of the
corresponding budget values.  The running actual cash balance is the
exception: it carries the balance of earlier months (seeded with the initial
cash) through such a month, so only `variance_cash = actual_cash - budget_cash`
holds for it (see C3), not `variance_cash = -budget_cash`. -/
theorem c8_missing_actuals (db : Database) (sy ys : Int) (init : ℚ)
    (rows : List BudgetVsActualRow) (i : Nat) (r : BudgetVsActualRow)
    (h : computeBudgetVsActual db sy ys init = some rows)
    (hi : i < rows.length)
    (hr : rows.getD i default = r)
    (hm : ∀ e ∈ db.actual_entries, monthStart e.entry_date ≠ r.month) :
    (r.actual_revenue = 0 ∧ r.actual_variable = 0 ∧ r.actual_fixed = 0 ∧
      r.actual_amortization = 0 ∧ r.actual_interest = 0 ∧ r.actual_principal = 0 ∧
      r.actual_ebt = 0) ∧
    (r.variance_revenue = -r.budget_revenue ∧ r.variance_variable = -r.budget_variable ∧
      r.variance_fixed = -r.budget_fixed ∧ r.variance_amortization = -r.budget_amortization ∧
      r.variance_interest = -r.budget_interest ∧ r.variance_principal = -r.budget_principal ∧
      r.variance_ebt = -r.budget_ebt) := by
  rw [computeBudgetVsActual] at h
  cases hcp : computeProjection db sy ys init with
  | none =>
    rw [hcp] at h
    exact absurd h (by simp)
  | some budget =>
    rw [hcp] at h
    cases hag : aggregateActuals db.actual_entries (fun _ _ => 0) with
    | none =>
      rw [hag] at h
      exact absurd h (by simp)
    | some actuals =>
      rw [hag] at h
      have hrows : rows = bvaRows actuals budget init := (Option.some.inj h).symm
      have hib : i < budget.length := by
        rw [hrows, bvaRows_length] at hi
        exact hi
      have hcents : ∀ b ∈ budget, centsB b := by
        rw [computeProjection] at hcp
        cases hpp : projParts db (generateMonths sy ys) with
        | none =>
          rw [hpp] at hcp
          exact absurd hcp (by simp)
        | some parts =>
          obtain ⟨rev, var, fc, am, li, lp, cin, cout⟩ := parts
          rw [hpp] at hcp
          have hb : budget =
              buildBreakdown rev var fc am li lp cin cout (generateMonths sy ys) init :=
            (Option.some.inj hcp).symm
          rw [hb]
          intro b hb2
          exact buildBreakdown_centsB rev var fc am li lp cin cout (generateMonths sy ys)
            init b hb2
      have hbmem : budget.getD i default ∈ budget := by
        rw [List.getD_eq_getElem budget default hib]
        exact List.getElem_mem hib
      have hmonth : (budget.getD i default).month = r.month := by
        rw [← hr, hrows, bvaRows_month_getD actuals budget init i hib]
      have hz : ∀ c : ActualCategory, actuals ((budget.getD i default).month) c = 0 := by
        intro c
        rw [hmonth]
        exact aggregateActuals_zero_month db.actual_entries _ actuals hag r.month hm c
      have := bvaRows_zero_row actuals budget init i hib (hcents _ hbmem) hz
      rw [hrows] at hr
      rw [← hr]
      exact this

theorem c8_witness :
    (((bvaRows (fun _ _ => 0)
          (buildBreakdown mzero mzero mzero mzero mzero mzero mzero mzero
            (generateMonths 2024 1) 0) 0).getD 0 default).actual_revenue = 0 ∧
      ((bvaRows (fun _ _ => 0)
          (buildBreakdown mzero mzero mzero mzero mzero mzero mzero mzero
            (generateMonths 2024 1) 0) 0).getD 0 default).actual_variable = 0 ∧
      ((bvaRows (fun _ _ => 0)
          (buildBreakdown mzero mzero mzero mzero mzero mzero mzero mzero
            (generateMonths 2024 1) 0) 0).getD 0 default).actual_fixed = 0 ∧
      ((bvaRows (fun _ _ => 0)
          (buildBreakdown mzero mzero mzero mzero mzero mzero mzero mzero
            (generateMonths 2024 1) 0) 0).getD 0 default).actual_amortization = 0 ∧
      ((bvaRows (fun _ _ => 0)
          (buildBreakdown mzero mzero mzero mzero mzero mzero mzero mzero
            (generateMonths 2024 1) 0) 0).getD 0 default).actual_interest = 0 ∧
      ((bvaRows (fun _ _ => 0)
          (buildBreakdown mzero mzero mzero mzero mzero mzero mzero mzero
            (generateMonths 2024 1) 0) 0).getD 0 default).actual_principal = 0 ∧
      ((bvaRows (fun _ _ => 0)
          (buildBreakdown mzero mzero mzero mzero mzero mzero mzero mzero
            (generateMonths 2024 1) 0) 0).getD 0 default).actual_ebt = 0) ∧
    (((bvaRows (fun _ _ => 0)
          (buildBreakdown mzero mzero mzero mzero mzero mzero mzero mzero
            (generateMonths 2024 1) 0) 0).getD 0 default).variance_revenue =
        -((bvaRows (fun _ _ => 0)
          (buildBreakdown mzero mzero mzero mzero mzero mzero mzero mzero
            (generateMonths 2024 1) 0) 0).getD 0 default).budget_revenue ∧
      ((bvaRows (fun _ _ => 0)
          (buildBreakdown mzero mzero mzero mzero mzero mzero mzero mzero
            (generateMonths 2024 1) 0) 0).getD 0 default).variance_variable =
        -((bvaRows (fun _ _ => 0)
          (buildBreakdown mzero mzero mzero mzero mzero mzero mzero mzero
            (generateMonths 2024 1) 0) 0).getD 0 default).budget_variable ∧
      ((bvaRows (fun _ _ => 0)
          (buildBreakdown mzero mzero mzero mzero mzero mzero mzero mzero
            (generateMonths 2024 1) 0) 0).getD 0 default).variance_fixed =
        -((bvaRows (fun _ _ => 0)
          (buildBreakdown mzero mzero mzero mzero mzero mzero mzero mzero
            (generateMonths 2024 1) 0) 0).getD 0 default).budget_fixed ∧
      ((bvaRows (fun _ _ => 0)
          (buildBreakdown mzero mzero mzero mzero mzero mzero mzero mzero
            (generateMonths 2024 1) 0) 0).getD 0 default).variance_amortization =
        -((bvaRows (fun _ _ => 0)
          (buildBreakdown mzero mzero mzero mzero mzero mzero mzero mzero
            (generateMonths 2024 1) 0) 0).getD 0 default).budget_amortization ∧
      ((bvaRows (fun _ _ => 0)
          (buildBreakdown mzero mzero mzero mzero mzero mzero mzero mzero
            (generateMonths 2024 1) 0) 0).getD 0 default).variance_interest =
        -((bvaRows (fun _ _ => 0)
          (buildBreakdown mzero mzero mzero mzero mzero mzero mzero mzero
            (generateMonths 2024 1) 0) 0).getD 0 default).budget_interest ∧
      ((bvaRows (fun _ _ => 0)
          (buildBreakdown mzero mzero mzero mzero mzero mzero mzero mzero
            (generateMonths 2024 1) 0) 0).getD 0 default).variance_principal =
        -((bvaRows (fun _ _ => 0)
          (buildBreakdown mzero mzero mzero mzero mzero mzero mzero mzero
            (generateMonths 2024 1) 0) 0).getD 0 default).budget_principal ∧
      ((bvaRows (fun _ _ => 0)
          (buildBreakdown mzero mzero mzero mzero mzero mzero mzero mzero
            (generateMonths 2024 1) 0) 0).getD 0 default).variance_ebt =
        -((bvaRows (fun _ _ => 0)
          (buildBreakdown mzero mzero mzero mzero mzero mzero mzero mzero
            (generateMonths 2024 1) 0) 0).getD 0 default).budget_ebt) :=
  c8_missing_actuals emptyDb 2024 1 0
    (bvaRows (fun _ _ => 0)
      (buildBreakdown mzero mzero mzero mzero mzero mzero mzero mzero
        (generateMonths 2024 1) 0) 0) 0
    ((bvaRows (fun _ _ => 0)
      (buildBreakdown mzero mzero mzero mzero mzero mzero mzero mzero
        (generateMonths 2024 1) 0) 0).getD 0 default)
    rfl
    (by rw [bvaRows_length, buildBreakdown_length, months_2024_1]; norm_num)
    rfl
    (by simp [emptyDb])

end BusinessPlan
